import Mathlib

/-!
Verification development for the ETFS scraper repository.

The repository contains six provider-variant Python scripts (Xtrackers.py,
Ishare.py, amundietf.py, vanguard.py, all.py, Combined.py) that extract ETF
holdings data.  This file gives a shallow embedding of the pure decision and
normalization logic of those scripts — classifier-response dispatch, download
selector handling, spreadsheet/CSV normalization, HTML-table fallback parsing,
URL collection, the show-more pagination loop, and the keyed record store —
and proves or refutes the specified properties about them.

Conventions of the embedding:
* Spreadsheet/CSV files are lists of rows; a cell is `Option String`
  (`none` models a pandas NaN / empty cell).
* Python `float(...)` / `pd.to_numeric(..., errors="coerce")` on the cleaned
  strings is modelled by `parseFloat : String → Option Rat`, which accepts the
  ordinary signed decimal forms; exotic forms (exponents, "inf") are treated
  as unparseable, which the claims below never depend on.
* Text processing is implemented structurally over `List Char` so that all
  definitions evaluate inside the kernel; `Char.toLower` matches Python
  `str.lower()` on the ASCII range used by the scripts' keyword sets.
* External browser/classifier effects are passed in as explicit data
  (`ClassifierResponse`, `DlOutcome`, page-table contents).
* Python dicts keyed by strings are association lists with the
  update-in-place / append-at-end insertion of `dictInsert`.
-/

namespace ETFS

/-! ## Data model -/

/-- A parsed decimal number `mant / 10 ^ shift`, kept unnormalized so that all
operations evaluate inside the kernel.  Distinct spellings of the same value
("5.3" vs "5.30") get distinct representatives; no script compares weights
numerically, so this is observationally faithful. -/
structure DecNum where
  mant : Int
  shift : Nat
deriving DecidableEq, Repr

/-- The rational value denoted by a `DecNum`. -/
def DecNum.toRat (d : DecNum) : Rat := (d.mant : Rat) / ((10 : Rat) ^ d.shift)

/-- A field value in an output record: either a successfully coerced number or
a raw string (for example the `"N/A"` filler written by `fillna`). -/
inductive FieldVal where
  | num (q : DecNum)
  | str (s : String)
deriving DecidableEq, Repr

/-- Canonical holding record shape shared by all provider scripts.  Fields a
given extraction path leaves out keep the `"N/A"` default. -/
structure Holding where
  name : String
  weight : FieldVal
  isin : String := "N/A"
  sector : String := "N/A"
  securityType : String := "N/A"
  country : String := "N/A"
  currency : String := "N/A"
deriving DecidableEq, Repr

/-- The per-fund record `{"isin": ..., "name": ..., "holdings": [...]}`
returned by every `scrape_etf_page` variant. -/
structure FundRecord where
  isin : String
  name : String
  holdings : List Holding
deriving DecidableEq, Repr

/-- Fund name / identifier as read by the metadata extractors. -/
structure PageMeta where
  name : String
  isin : String
deriving DecidableEq, Repr

/-- A spreadsheet / CSV row: one `Option String` per cell, `none` for NaN. -/
abbrev Row := List (Option String)

/-- A spreadsheet / CSV file as read with `header=None`. -/
abbrev Sheet := List Row

/-! ## Text helpers (structural models of the Python string operations) -/

/-- Does `hay` begin with `needle`? -/
def listBeginsWith : List Char → List Char → Bool
  | _, [] => true
  | [], _ :: _ => false
  | c :: cs, d :: ds => c = d && listBeginsWith cs ds

/-- Does `hay` contain `needle` as a contiguous subsequence? -/
def listContainsSeq : List Char → List Char → Bool
  | hay, needle =>
    match hay with
    | [] => needle.isEmpty
    | _ :: t => listBeginsWith hay needle || listContainsSeq t needle

/-- Python's `needle in haystack` substring test. -/
def strContains (hay needle : String) : Bool :=
  listContainsSeq hay.data needle.data

/-- Python `s.split(sep)` for a one-character separator. -/
def splitChar (sep : Char) : List Char → List (List Char)
  | [] => [[]]
  | c :: cs =>
    let r := splitChar sep cs
    if c = sep then [] :: r
    else
      match r with
      | [] => [[c]]
      | h :: t => (c :: h) :: t

/-- Whitespace recognised by Python `str.strip()` (the forms appearing here). -/
def isSpaceChar (c : Char) : Bool := c = ' ' || c = '\t' || c = '\n' || c = '\r'

/-- Python `s.strip()`. -/
def trimChars (cs : List Char) : List Char :=
  ((cs.dropWhile isSpaceChar).reverse.dropWhile isSpaceChar).reverse

/-- Python `s.lower()` (ASCII range). -/
def lowerChars (cs : List Char) : List Char := cs.map Char.toLower

/-- Python `s.strip().lower()` as a String-to-String map. -/
def cleanLower (s : String) : String := String.mk (lowerChars (trimChars s.data))

/-- Python `s.strip()` as a String-to-String map. -/
def strTrim (s : String) : String := String.mk (trimChars s.data)

/-! ## Numeric coercion -/

/-- Digits-to-number accumulator used by the decimal parser. -/
def digitsToNat (cs : List Char) : Nat :=
  cs.foldl (fun a c => a * 10 + (c.toNat - 48)) 0

/-- Unsigned decimal literal: `"12"`, `"12.5"`, `"12."`, `".5"`. -/
def parseUnsignedDec (cs : List Char) : Option DecNum :=
  match splitChar '.' cs with
  | [i] =>
    if 0 < i.length && i.all Char.isDigit then
      some ⟨digitsToNat i, 0⟩
    else none
  | [i, f] =>
    if 0 < i.length + f.length && i.all Char.isDigit && f.all Char.isDigit then
      some ⟨digitsToNat (i ++ f), f.length⟩
    else none
  | _ => none

/-- Model of Python `float(s)` (and of `pd.to_numeric(s, errors="coerce")`)
on the already-cleaned weight strings: optional sign, decimal digits with an
optional point, surrounding whitespace ignored. -/
def parseFloat (s : String) : Option DecNum :=
  match trimChars s.data with
  | '-' :: rest => (parseUnsignedDec rest).map (fun d => ⟨-d.mant, d.shift⟩)
  | '+' :: rest => parseUnsignedDec rest
  | rest => parseUnsignedDec rest

/-- Python `s.replace(x, "")`: delete every occurrence of the character. -/
def removeChar (x : Char) (cs : List Char) : List Char :=
  cs.filter (fun c => c ≠ x)

/-- Python `s.replace(a, b)` for one-character arguments. -/
def mapChar (a b : Char) (cs : List Char) : List Char :=
  cs.map (fun c => if c = a then b else c)

/-! ## Dataframe column utilities -/

/-- Index of the (first) column with the given label, as in pandas column
selection over the renamed header. -/
def colIdx (cols : List String) (label : String) : Option Nat :=
  cols.findIdx? (fun c => c = label)

/-- Cell of a row at an optional column index; a missing column or a row
shorter than the header reads as NaN. -/
def cellAt (r : Row) (i : Option Nat) : Option String :=
  match i with
  | some k => (r.get? k).getD none
  | none => none

/-! ## Xtrackers.py — file-based normalizer (`scrape_etf_page`, lines 227-296)

The downloaded Excel file is first scanned for its header row (a row whose
cell texts contain at least 3 of a fixed keyword set, lines 233-245), then
re-read with that row as header, columns are renamed by first-substring-match
against `column_mapping` (lines 251-261), the weight column — if present — is
numerically coerced with `errors="coerce"` (lines 266-270), rows missing
`name` or `isin` are dropped (line 273), missing canonical columns are
created and remaining NaNs are filled with `"N/A"` (lines 275-281). -/

/-- The header keyword set of Xtrackers.py line 234. -/
def xtHeaderKeywords : List String :=
  ["isin", "name", "country", "currency", "exchange", "bezeichnung", "land",
   "währung", "rating"]

/-- `[str(cell).strip().lower() for cell in row.values if pd.notna(cell)]`. -/
def xtRowCells (r : Row) : List String :=
  (r.filterMap id).map cleanLower

/-- Number of header keywords appearing (as whole cells) in the row. -/
def xtRowMatches (r : Row) : Nat :=
  xtHeaderKeywords.countP (fun kw => (xtRowCells r).contains kw)

/-- Line 241: a row is taken as header when it has at least 3 keyword hits. -/
def xtIsHeaderRow (r : Row) : Bool :=
  decide (3 ≤ xtRowMatches r)

/-- Top-to-bottom scan with break: index of the first row satisfying `p`. -/
def findRowIdx (p : Row → Bool) : Sheet → Nat → Option Nat
  | [], _ => none
  | r :: rs, i => if p r then some i else findRowIdx p rs (i + 1)

/-- The `header_row_index` scan of Xtrackers.py lines 235-244. -/
def xtFindHeader (rows : Sheet) : Option Nat :=
  findRowIdx xtIsHeaderRow rows 0

/-- `column_mapping` of Xtrackers.py lines 251-259, in insertion order. -/
def xtColumnMapping : List (String × String) :=
  [("name", "name"), ("bezeichnung", "name"),
   ("währung", "currency"), ("currency", "currency"),
   ("gewichtung %", "weight"), ("gewichtung", "weight"), ("weighting", "weight"),
   ("sektor", "sector"), ("industry classification", "sector"),
   ("anlageklasse", "securityType"), ("asset class", "securityType"),
   ("type of security", "securityType"),
   ("land", "country"), ("country", "country"),
   ("isin", "isin")]

/-- Line 261: rename a column to the first mapping entry whose key is a
substring of it, else keep it. -/
def xtRenameCol (c : String) : String :=
  ((xtColumnMapping.find? (fun p => strContains c p.1)).map Prod.snd).getD c

/-- Weight coercion of lines 266-270:
`pd.to_numeric(x.astype(str).str.replace('%','').str.replace(',','.').str.strip(), errors="coerce")`
(a NaN cell stringifies to `"nan"`, which fails the numeric coercion). -/
def xtWeightParse (cell : Option String) : Option DecNum :=
  cell.bind (fun s => parseFloat (String.mk (mapChar ',' '.' (removeChar '%' s.data))))

/-- The stored weight field: unparsable or missing weights survive `dropna`
(which only covers `name`/`isin`) and are rewritten to `"N/A"` by `fillna`;
an absent weight column is synthesized as the constant `"N/A"` column. -/
def xtWeightField (wI : Option Nat) (r : Row) : FieldVal :=
  match wI with
  | none => .str "N/A"
  | some k =>
    match xtWeightParse (cellAt r (some k)) with
    | some q => .num q
    | none => .str "N/A"

/-- Normalization of the data rows under a detected header
(Xtrackers.py lines 248-289). -/
def xtProcessRows (header : Row) (dataRows : Sheet) : List Holding :=
  let cols := (header.map (fun c => cleanLower (c.getD ""))).map xtRenameCol
  if cols.contains "name" && cols.contains "isin" then
    let nI := colIdx cols "name"
    let iI := colIdx cols "isin"
    let wI := colIdx cols "weight"
    let sI := colIdx cols "sector"
    let tI := colIdx cols "securityType"
    let cI := colIdx cols "country"
    let uI := colIdx cols "currency"
    dataRows.filterMap (fun r =>
      match cellAt r nI, cellAt r iI with
      | some nm, some isn =>
        some { name := nm, isin := isn,
               weight := xtWeightField wI r,
               sector := (cellAt r sI).getD "N/A",
               securityType := (cellAt r tI).getD "N/A",
               country := (cellAt r cI).getD "N/A",
               currency := (cellAt r uI).getD "N/A" }
      | _, _ => none)
  else []

/-- Full file normalization of Xtrackers.py lines 227-296: no detected header
row (or a header-only file) yields the empty holdings list. -/
def xtProcessFile (rows : Sheet) : List Holding :=
  match xtFindHeader rows with
  | none => []
  | some k =>
    match rows.drop k with
    | [] => []
    | h :: t => xtProcessRows h t

/-! ## Ishare.py — CSV normalizer and HTML fallbacks
(`scrape_etf_page_and_download_csv`, lines 140-282) -/

/-- The raw text of a CSV line, for the start-row scan of Ishare.py
lines 185-190 (the file is scanned line by line for `"Emittententicker"` or
`"Ticker"`). -/
def rowText (r : Row) : String :=
  String.intercalate "," (r.map (fun c => c.getD ""))

/-- Line 188: a line marking the CSV header. -/
def isStartRow (r : Row) : Bool :=
  strContains (rowText r) "Emittententicker" || strContains (rowText r) "Ticker"

/-- `start_row` of Ishare.py lines 185-190: defaults to 0 when no line
matches. -/
def ishareStartRow (rows : Sheet) : Nat :=
  (findRowIdx isStartRow rows 0).getD 0

/-- `column_mapping` of Ishare.py line 194 — exact-label rename. -/
def ishareColumnMapping : List (String × String) :=
  [("Name", "name"), ("Sektor", "sector"), ("Anlageklasse", "securityType"),
   ("Gewichtung (%)", "weight")]

/-- `df.rename(columns=column_mapping)`: exact match on the label. -/
def ishareRenameCol (c : String) : String :=
  ((ishareColumnMapping.find? (fun p => p.1 = c)).map Prod.snd).getD c

/-- Weight coercion of Ishare.py line 199:
`pd.to_numeric(x.astype(str).str.replace(',', '.'), errors="coerce")`. -/
def ishareWeightParse (cell : Option String) : Option DecNum :=
  cell.bind (fun s => parseFloat (String.mk (mapChar ',' '.' s.data)))

/-- CSV normalization of Ishare.py lines 185-217: locate the header line
(processing only happens when it is *after* line 0, line 192), rename the
columns, require all of name/sector/securityType/weight, coerce the weight,
drop rows with unparsable weight or missing name (line 200), fill missing
sector/securityType with `"N/A"` (line 201), and enrich each record with an
ISIN looked up by holding name in the page's all-holdings table (lines
204-217, defaulting to `"N/A"`). -/
def ishareProcessCsv (rows : Sheet) (isinMap : List (String × String)) : List Holding :=
  let k := ishareStartRow rows
  if 0 < k then
    match rows.drop k with
    | [] => []
    | h :: t =>
      let cols := (h.map (fun c => c.getD "")).map ishareRenameCol
      if ["name", "sector", "securityType", "weight"].all (fun c => cols.contains c) then
        let nI := colIdx cols "name"
        let sI := colIdx cols "sector"
        let tI := colIdx cols "securityType"
        let wI := colIdx cols "weight"
        t.filterMap (fun r =>
          match ishareWeightParse (cellAt r wI), cellAt r nI with
          | some w, some nm =>
            some { name := nm, weight := .num w,
                   sector := (cellAt r sI).getD "N/A",
                   securityType := (cellAt r tI).getD "N/A",
                   isin := ((isinMap.find? (fun p => p.1 = nm)).map Prod.snd).getD "N/A" }
          | _, _ => none)
      else []
  else []

/-- A row of the `#tabsTen-largest` fallback table: the optional
`td.colName` and `td.colFundPercentage` cell texts. -/
structure LargestRow where
  nameCell : Option String
  weightCell : Option String
deriving DecidableEq, Repr

/-- A row of the `table#allHoldingsTable` fallback table. -/
structure AllRow where
  nameCell : Option String
  weightCell : Option String
  isinCell : Option String
  sectorCell : Option String
  typeCell : Option String
deriving DecidableEq, Repr

/-- The fallback-relevant contents of an iShares product page: the two
holdings tables, each absent when its selector matches nothing. -/
structure IsharePage where
  tabsTenLargest : Option (List LargestRow)
  allHoldingsTable : Option (List AllRow)
deriving DecidableEq, Repr

/-- "Largest positions" fallback of Ishare.py lines 222-237: rows missing
either cell, or with an unparsable weight, are skipped silently. -/
def ishareLargestFallback (rows : List LargestRow) : List Holding :=
  rows.filterMap (fun r =>
    match r.nameCell, r.weightCell with
    | some nm, some wt =>
      match parseFloat (String.mk (mapChar ',' '.' wt.data)) with
      | some w => some { name := nm, weight := .num w }
      | none => none
    | _, _ => none)

/-- "All Holdings" fallback of Ishare.py lines 240-265: a missing weight cell
is **defaulted to 0.0**, while a present but unparsable weight cell raises an
uncaught `ValueError` (the `float(...)` call on line 252 sits outside the
per-row `try`), aborting the whole page. -/
def ishareAllFallback (rows : List AllRow) : Except Unit (List Holding) :=
  rows.foldlM
    (fun acc r => do
      let w : DecNum ←
        match r.weightCell with
        | some t =>
          match parseFloat (String.mk (mapChar ',' '.' t.data)) with
          | some w => pure w
          | none => throw ()
        | none => pure ⟨0, 0⟩
      pure (acc ++ [{ name := r.nameCell.getD "N/A", weight := .num w,
                      isin := r.isinCell.getD "N/A",
                      sector := r.sectorCell.getD "N/A",
                      securityType := r.typeCell.getD "N/A" }]))
    []

/-- The timeout fallback chain of Ishare.py lines 219-268: try the largest-
positions table; only if that yields nothing, try the all-holdings table. -/
def ishareFallback (p : IsharePage) : Except Unit (List Holding) := do
  let hs :=
    match p.tabsTenLargest with
    | some rows => ishareLargestFallback rows
    | none => []
  if hs.isEmpty then
    match p.allHoldingsTable with
    | some rows => ishareAllFallback rows
    | none => pure []
  else pure hs

/-! ## Classifier-response dispatch -/

/-- The result of `json.loads` on the (code-fence-stripped) classifier text:
either a decode failure, or an object carrying the optional `action` and
`selector` strings and the `holdings` list (already defaulted to `[]` when the
key is absent, as `data.get('holdings', [])` does). -/
inductive ClassifierResponse where
  | malformed
  | object (action : Option String) (selector : Option String) (holdings : List Holding)
deriving DecidableEq, Repr

/-- Outcome of a `page.expect_download` attempt: success, a Playwright
`TimeoutError`, or any other exception (click interception etc.). -/
inductive DlOutcome where
  | success
  | timeout
  | failure
deriving DecidableEq, Repr

/-- Dispatch of Ishare.py lines 154-282, with the download attempt and the
downloaded file passed in explicitly:
* decode failure → `return None` (lines 154-159);
* `action == "download"` with an empty/missing selector → `return None`
  (lines 164-167);
* download success → CSV normalization; download timeout → HTML fallback
  (a `ValueError` escaping the fallback aborts the page, which `main`
  catches, so no record results); any other download error → the record is
  still returned with the holdings collected so far (none);
* `action == "extract"` → the classifier-supplied holdings;
* `action == "none"` or any unrecognized/missing action → empty holdings. -/
def ishareScrape (meta : PageMeta) (resp : ClassifierResponse) (dl : DlOutcome)
    (csv : Sheet) (isinMap : List (String × String)) (p : IsharePage) :
    Option FundRecord :=
  match resp with
  | .malformed => none
  | .object action selector holdings =>
    if action = some "download" then
      match selector with
      | none => none
      | some s =>
        if s = "" then none
        else
          match dl with
          | .success =>
            some { isin := meta.isin, name := meta.name,
                   holdings := ishareProcessCsv csv isinMap }
          | .timeout =>
            match ishareFallback p with
            | .ok hs => some { isin := meta.isin, name := meta.name, holdings := hs }
            | .error _ => none
          | .failure =>
            some { isin := meta.isin, name := meta.name, holdings := [] }
    else if action = some "extract" then
      some { isin := meta.isin, name := meta.name, holdings := holdings }
    else
      some { isin := meta.isin, name := meta.name, holdings := [] }

/-! ## Download-selector handling (Xtrackers.py vs amundietf.py) -/

/-- The hand-maintained fallback locator of Xtrackers.py line 202. -/
def xtFallbackSelector : String :=
  "a[href*=\"/excel/index/constituent/\"], a[href*=\"/excel/product/constituent/\"]"

/-- Xtrackers.py lines 198-204: `selector = data.get('selector')`; an empty or
missing selector is replaced by the fallback locator and the download
proceeds. -/
def xtChooseSelector (selector : Option String) : String :=
  match selector with
  | some s => if s = "" then xtFallbackSelector else s
  | none => xtFallbackSelector

/-- amundietf.py lines 167-170: an empty or missing selector raises
`ValueError("AI suggested download but did not provide a valid selector.")`,
which the outer handler (lines 282-285) turns into a `None` page result. -/
def amundiSelectorOutcome (selector : Option String) : Except String String :=
  match selector with
  | some s =>
    if s = "" then
      .error "AI suggested download but did not provide a valid selector."
    else .ok s
  | none => .error "AI suggested download but did not provide a valid selector."

/-! ## Xtrackers.py download branch (lines 206-306)

After a failed download (`temp_path` never written) Xtrackers.py runs **no**
HTML fallback: it prints "Download failed - no file was saved.", `holdings`
stays `[]`, and the record is still returned with the resolved metadata. -/

/-- Holdings produced by the Xtrackers download branch: the normalized file on
success, the empty list on any download failure. -/
def xtDownloadBranch (file : Option Sheet) : List Holding :=
  match file with
  | some rows => xtProcessFile rows
  | none => []

/-- The record returned by Xtrackers.py line 306 after the download branch. -/
def xtScrapeDownload (meta : PageMeta) (file : Option Sheet) : Option FundRecord :=
  some { isin := meta.isin, name := meta.name, holdings := xtDownloadBranch file }

/-! ## all.py — `process_amundi_download` (lines 446-509)

This processor does not scan for a header: it reads the spreadsheet with
`header=21`, i.e. the row at index 21 is always taken as the header
regardless of content; a shorter file makes `read_excel` raise, which the
handler converts to an empty result. -/

/-- `column_mapping` of all.py lines 462-470, in insertion order. -/
def amundiColumnMapping : List (String × String) :=
  [("Name", "name"), ("Bezeichnung", "name"), ("Wertpapierbezeichnung", "name"),
   ("Währung", "currency"), ("Currency", "currency"),
   ("Gewichtung", "weight"), ("Weight", "weight"), ("Gewichtung (%)", "weight"),
   ("Sektor", "sector"), ("Sector", "sector"), ("Branche", "sector"),
   ("Anlageklasse", "securityType"), ("Asset Class", "securityType"),
   ("Land", "country"), ("Country", "country"),
   ("ISIN", "isin")]

/-- Python `s.lower()` as a String-to-String map. -/
def lowerStr (s : String) : String := String.mk (lowerChars s.data)

/-- all.py line 473: rename by case-insensitive exact label match; unmatched
labels are lowercased. -/
def amundiRenameCol (c : String) : String :=
  ((amundiColumnMapping.find? (fun p => lowerStr p.1 = lowerStr c)).map Prod.snd).getD
    (lowerStr c)

/-- all.py lines 446-509: fixed header at row index 21 (`header=21`, line
453), stripped column labels, case-insensitive rename, weight coercion as in
Xtrackers (lines 482-485), drop of rows with unparsable weight or missing
name (line 488), `"N/A"` synthesis and fill (lines 491-497). -/
def amundiProcessFile (rows : Sheet) : List Holding :=
  match rows.drop 21 with
  | [] => []
  | h :: t =>
    let cols := (h.map (fun c => strTrim (c.getD ""))).map amundiRenameCol
    if cols.contains "name" && cols.contains "weight" then
      let nI := colIdx cols "name"
      let wI := colIdx cols "weight"
      let iI := colIdx cols "isin"
      let sI := colIdx cols "sector"
      let tI := colIdx cols "securityType"
      let cI := colIdx cols "country"
      let uI := colIdx cols "currency"
      t.filterMap (fun r =>
        match xtWeightParse (cellAt r wI), cellAt r nI with
        | some w, some nm =>
          some { name := nm, weight := .num w,
                 isin := (cellAt r iI).getD "N/A",
                 sector := (cellAt r sI).getD "N/A",
                 securityType := (cellAt r tI).getD "N/A",
                 country := (cellAt r cI).getD "N/A",
                 currency := (cellAt r uI).getD "N/A" }
        | _, _ => none)
    else []

/-! ## Record stores (Python dicts keyed by ISIN) -/

/-- Python `d[k] = v` on a string-keyed dict: update the existing entry in
place, else append at the end. -/
def dictInsert (d : List (String × FundRecord)) (k : String) (v : FundRecord) :
    List (String × FundRecord) :=
  if d.any (fun p => p.1 = k) then d.map (fun p => if p.1 = k then (k, v) else p)
  else d ++ [(k, v)]

/-- Python `d.get(k)`. -/
def dictLookup (d : List (String × FundRecord)) (k : String) : Option FundRecord :=
  (d.find? (fun p => p.1 = k)).map Prod.snd

/-- Ishare.py main, lines 303-306: a result is stored under its ISIN when the
result is non-None and its ISIN is truthy (non-empty). -/
def ishareStoreStep (store : List (String × FundRecord)) (result : Option FundRecord) :
    List (String × FundRecord) :=
  match result with
  | some r => if r.isin = "" then store else dictInsert store r.isin r
  | none => store

/-- The collection built by Ishare.py main over a whole run. -/
def ishareStoreAll (results : List (Option FundRecord)) : List (String × FundRecord) :=
  results.foldl ishareStoreStep []

/-- all.py main, lines 649-652: **any** non-None result is stored under its
ISIN — including the placeholder `"N/A"` left by a failed metadata
extraction. -/
def allStoreStep (store : List (String × FundRecord)) (result : Option FundRecord) :
    List (String × FundRecord) :=
  match result with
  | some r => dictInsert store r.isin r
  | none => store

/-! ## Combined.py — Firecrawl variant -/

/-- The JSON object returned by the Firecrawl extraction, with `none` for a
missing key (`data.get(..., default)` supplies the defaults below). -/
structure FirecrawlData where
  name : Option String
  isin : Option String
  holdings : Option (List Holding)
deriving DecidableEq, Repr

/-- Combined.py `scrape_etf_page`, lines 292-306: a failed scrape (or a result
without a `json` attribute) yields `None`; otherwise the record is built with
`"Unknown"` defaults and the holdings list truncated to its first 10 elements
(`holdings[:10]`, line 301). -/
def combinedScrape (result : Option FirecrawlData) : Option FundRecord :=
  match result with
  | none => none
  | some d =>
    some { isin := d.isin.getD "Unknown", name := d.name.getD "Unknown",
           holdings := (d.holdings.getD []).take 10 }

/-- Combined.py main, lines 345-349: a result is stored only when present and
its ISIN is none of `None`/`"Unknown"`/`""`. -/
def combinedStoreStep (store : List (String × FundRecord)) (result : Option FundRecord) :
    List (String × FundRecord) :=
  match result with
  | some r => if r.isin = "Unknown" || r.isin = "" then store else dictInsert store r.isin r
  | none => store

/-! ## URL collection (Ishare.py `get_etf_urls`, lines 55-64) -/

/-- Ishare.py line 62-63: strip the query string and re-append the fixed
locale passthrough parameters. -/
def ishareBuildUrl (href : String) : String :=
  "https://www.ishares.com" ++ String.mk (href.data.takeWhile (fun c => c ≠ '?')) ++
    "?switchLocale=y&siteEntryPassthrough=true"

/-- One iteration of the Ishare.py URL loop (lines 59-64): append the built
URL when the `href` attribute is truthy. -/
def ishareCollectStep (acc : List String) (h? : Option String) : List String :=
  match h? with
  | some h => if h = "" then acc else acc ++ [ishareBuildUrl h]
  | none => acc

/-- Ishare.py lines 59-64: iterate over the first `limit` anchor elements in
DOM order, keep those with a truthy `href`, and build the product URL — no
deduplication of any kind. -/
def ishareCollectUrls (hrefs : List (Option String)) (limit : Nat) : List String :=
  (hrefs.take limit).foldl ishareCollectStep []

/-! ## The show-more pagination loop (all.py lines 137-141,
Combined.py lines 85-87)

`while await page.locator('button:has-text("Show more")').is_visible():
click; wait` — the loop body has no iteration counter.  `visible i` tells
whether the affordance is still visible before iteration `i`; the loop run is
given explicit fuel, and `none` means the loop is still running after `fuel`
iterations. -/

/-- One fuel-indexed unfolding of the show-more while-loop, returning the
iteration index at which the loop exits (if it does within the fuel). -/
def showMoreLoopGo (visible : Nat → Bool) : Nat → Nat → Option Nat
  | 0, _ => none
  | fuel + 1, i => if visible i then showMoreLoopGo visible fuel (i + 1) else some i

/-- The show-more loop started at iteration 0. -/
def showMoreLoop (visible : Nat → Bool) (fuel : Nat) : Option Nat :=
  showMoreLoopGo visible fuel 0

/-- "The pagination loop has a hard iteration cap": some bound on the number
of clicks after which the loop has exited on **every** page. -/
def showMoreHasCap : Prop :=
  ∃ cap, ∀ visible, (showMoreLoop visible cap).isSome

/-! ## Concrete instances used by counterexamples and witnesses -/

/-- An Xtrackers download with a valid header row and a data row whose weight
cell `"abc"` fails numeric coercion. -/
def c1File : Sheet :=
  [[some "isin", some "name", some "land", some "gewichtung"],
   [some "XS1", some "Foo", some "DE", some "abc"]]

/-- An iShares holdings CSV: one preamble line, the `"Ticker"` header line,
and one valid data row. -/
def c1Csv : Sheet :=
  [[some "legal preamble"],
   [some "Ticker", some "Name", some "Sektor", some "Anlageklasse", some "Gewichtung (%)"],
   [some "AAPL", some "Apple", some "IT", some "Aktie", some "5,3"]]

/-- The record `c1Csv` normalizes to. -/
def c1Rec : Holding :=
  { name := "Apple", weight := .num ⟨53, 1⟩, sector := "IT", securityType := "Aktie" }

/-- An iShares page whose largest-positions fallback table holds one
parseable row. -/
def c5Page : IsharePage :=
  { tabsTenLargest := some [{ nameCell := some "Foo", weightCell := some "1,2" }],
    allHoldingsTable := none }

/-- Two scrape results carrying the same ISIN. -/
def c6r1 : FundRecord := { isin := "LU1", name := "A", holdings := [] }

/-- Second result for the same ISIN as `c6r1`. -/
def c6r2 : FundRecord := { isin := "LU1", name := "B", holdings := [] }

/-- A spreadsheet whose header row sits at row 0 (no preamble), followed by
one valid data row. -/
def c7NoPreambleFile : Sheet :=
  [[some "Name", some "Gewichtung"],
   [some "Foo", some "1,5"]]

/-- A Firecrawl result with 12 extracted holdings. -/
def c10Data : FirecrawlData :=
  { name := some "Fund", isin := some "IE00X",
    holdings := some (List.replicate 12 { name := "H", weight := .num ⟨1, 0⟩ }) }

/-- The record Combined.py builds from `c10Data`. -/
def c10Rec : FundRecord :=
  { isin := "IE00X", name := "Fund",
    holdings := List.replicate 10 { name := "H", weight := .num ⟨1, 0⟩ } }

/-! ## Helper lemmas -/

theorem ishareCollect_foldl :
    ∀ (l : List (Option String)) (acc : List String),
      l.foldl ishareCollectStep acc
        = acc ++ ((l.filterMap id).filter (fun h => h ≠ "")).map ishareBuildUrl := by
  intro l
  induction l with
  | nil => intro acc; simp
  | cons h? t ih =>
    intro acc
    cases h? with
    | none => simpa using ih acc
    | some h =>
      by_cases hh : h = ""
      · subst hh
        simpa [ishareCollectStep] using ih acc
      · simp [ishareCollectStep, hh, ih]

theorem findRowIdx_cons (p : Row → Bool) (r : Row) (t : Sheet) (i : Nat) :
    findRowIdx p (r :: t) i = if p r then some i else findRowIdx p t (i + 1) := rfl

theorem findRowIdx_append (p : Row → Bool) :
    ∀ (pre : Sheet) (hdr : Row) (rest : Sheet) (i : Nat),
      (∀ r ∈ pre, p r = false) → p hdr = true →
      findRowIdx p (pre ++ hdr :: rest) i = some (i + pre.length) := by
  intro pre
  induction pre with
  | nil =>
    intro hdr rest i _ hp
    simp [findRowIdx_cons, hp]
  | cons r t ih =>
    intro hdr rest i hpre hp
    have hr : p r = false := hpre r (by simp)
    have ht : ∀ s ∈ t, p s = false := fun s hs => hpre s (by simp [hs])
    rw [List.cons_append, findRowIdx_cons, hr]
    simp only [Bool.false_eq_true, if_false]
    rw [ih hdr rest (i + 1) ht hp, List.length_cons]
    congr 1
    omega

theorem findRowIdx_none (p : Row → Bool) :
    ∀ (rows : Sheet) (i : Nat), (∀ r ∈ rows, p r = false) → findRowIdx p rows i = none := by
  intro rows
  induction rows with
  | nil => intro i _; rfl
  | cons r t ih =>
    intro i h
    have hr : p r = false := h r (by simp)
    rw [findRowIdx_cons, hr]
    simp only [Bool.false_eq_true, if_false]
    exact ih (i + 1) (fun s hs => h s (by simp [hs]))

theorem dictInsert_keys (d : List (String × FundRecord)) (k : String) (v : FundRecord) :
    (dictInsert d k v).map Prod.fst
      = if d.any (fun p => p.1 = k) then d.map Prod.fst else d.map Prod.fst ++ [k] := by
  unfold dictInsert
  by_cases hAny : d.any (fun p => p.1 = k) = true
  · rw [if_pos hAny, if_pos hAny, List.map_map]
    refine List.map_congr_left ?_
    intro p _
    dsimp only [Function.comp]
    split
    · rename_i hp; simp_all
    · rfl
  · rw [if_neg hAny, if_neg hAny, List.map_append]
    rfl

theorem dictInsert_keys_nodup (d : List (String × FundRecord)) (k : String) (v : FundRecord)
    (h : (d.map Prod.fst).Nodup) : ((dictInsert d k v).map Prod.fst).Nodup := by
  rw [dictInsert_keys]
  split
  · exact h
  · rename_i hAny
    rw [List.nodup_append]
    refine ⟨h, List.nodup_singleton k, ?_⟩
    intro a ha hb
    rw [List.mem_singleton] at hb
    subst hb
    rw [List.mem_map] at ha
    obtain ⟨p, hp, hpk⟩ := ha
    exact hAny (List.any_eq_true.mpr ⟨p, hp, by simp [hpk]⟩)

theorem dictLookup_map_replace_ne (k k' : String) (v : FundRecord) (hne : k' ≠ k) :
    ∀ d : List (String × FundRecord),
      dictLookup (d.map (fun p => if p.1 = k then (k, v) else p)) k' = dictLookup d k' := by
  intro d
  induction d with
  | nil => rfl
  | cons p t ih =>
    unfold dictLookup at ih ⊢
    rw [List.map_cons]
    by_cases hp : p.1 = k
    · rw [if_pos hp]
      rw [List.find?_cons_of_neg _ (by simp [Ne.symm hne]),
        List.find?_cons_of_neg _ (by simp [hp, Ne.symm hne])]
      exact ih
    · rw [if_neg hp]
      by_cases hp' : p.1 = k'
      · rw [List.find?_cons_of_pos _ (by simp [hp']), List.find?_cons_of_pos _ (by simp [hp'])]
      · rw [List.find?_cons_of_neg _ (by simp [hp']), List.find?_cons_of_neg _ (by simp [hp'])]
        exact ih

theorem dictLookup_map_replace_eq (k : String) (v : FundRecord) :
    ∀ d : List (String × FundRecord), d.any (fun p => p.1 = k) = true →
      dictLookup (d.map (fun p => if p.1 = k then (k, v) else p)) k = some v := by
  intro d
  induction d with
  | nil => intro h; simp at h
  | cons p t ih =>
    intro hAny
    unfold dictLookup at ih ⊢
    rw [List.map_cons]
    by_cases hp : p.1 = k
    · rw [if_pos hp, List.find?_cons_of_pos _ (by simp)]
      rfl
    · rw [if_neg hp, List.find?_cons_of_neg _ (by simp [hp])]
      refine ih ?_
      rcases List.any_eq_true.mp hAny with ⟨q, hq, hqk⟩
      rcases List.mem_cons.mp hq with rfl | hq'
      · simp_all
      · exact List.any_eq_true.mpr ⟨q, hq', hqk⟩

theorem dictLookup_dictInsert (d : List (String × FundRecord)) (k k' : String) (v : FundRecord) :
    dictLookup (dictInsert d k v) k' = if k' = k then some v else dictLookup d k' := by
  unfold dictInsert
  by_cases hAny : d.any (fun p => p.1 = k) = true
  · rw [if_pos hAny]
    by_cases hk : k' = k
    · subst hk
      rw [if_pos rfl]
      exact dictLookup_map_replace_eq k' v d hAny
    · rw [if_neg hk]
      exact dictLookup_map_replace_ne k k' v hk d
  · rw [if_neg hAny]
    unfold dictLookup
    rw [List.find?_append]
    by_cases hk : k' = k
    · subst hk
      have h1 : d.find? (fun p => decide (p.1 = k')) = none := by
        rw [List.find?_eq_none]
        intro x hx hxx
        exact hAny (List.any_eq_true.mpr ⟨x, hx, hxx⟩)
      rw [if_pos rfl, h1]
      simp [List.find?]
    · have h2 : ([(k, v)].find? (fun p => decide (p.1 = k'))) = none := by
        simp [List.find?, Ne.symm hk]
      rw [if_neg hk, h2, Option.or_none]

theorem getLast?_cons_isSome (b : FundRecord) :
    ∀ t : List FundRecord, ∃ y, (b :: t).getLast? = some y := by
  intro t
  induction t generalizing b with
  | nil => exact ⟨b, rfl⟩
  | cons c t' ih =>
    rw [List.getLast?_cons_cons]
    exact ih c

theorem getLast?_cons_or (a : FundRecord) (l : List FundRecord) :
    (a :: l).getLast? = l.getLast?.or (some a) := by
  cases l with
  | nil => rfl
  | cons b t =>
    rw [List.getLast?_cons_cons]
    obtain ⟨y, hy⟩ := getLast?_cons_isSome b t
    rw [hy]
    rfl

theorem ishareStore_foldl_lookup :
    ∀ (results : List (Option FundRecord)) (d : List (String × FundRecord)) (k : String),
      k ≠ "" →
      dictLookup (results.foldl ishareStoreStep d) k
        = (((results.filterMap id).filter (fun r => r.isin = k)).getLast?).or (dictLookup d k) := by
  intro results
  induction results with
  | nil =>
    intro d k _
    simp
  | cons r? rs ih =>
    intro d k hk
    rw [List.foldl_cons]
    cases r? with
    | none =>
      have hstep : ishareStoreStep d none = d := rfl
      rw [hstep, ih d k hk]
      simp
    | some rec =>
      by_cases hemp : rec.isin = ""
      · have hstep : ishareStoreStep d (some rec) = d := by
          simp [ishareStoreStep, hemp]
        have hne : ¬ (rec.isin = k) := by
          rw [hemp]
          exact fun h => hk h.symm
        rw [hstep, ih d k hk]
        simp [hne]
      · have hstep : ishareStoreStep d (some rec) = dictInsert d rec.isin rec := by
          simp [ishareStoreStep, hemp]
        rw [hstep, ih (dictInsert d rec.isin rec) k hk, dictLookup_dictInsert]
        by_cases hkr : k = rec.isin
        · have hfilter : (rec.isin = k) := hkr.symm
          rw [if_pos hkr]
          have hfm : List.filterMap id (some rec :: rs) = rec :: List.filterMap id rs := rfl
          have hfc : List.filter (fun r => decide (r.isin = k)) (rec :: List.filterMap id rs)
              = rec :: List.filter (fun r => decide (r.isin = k)) (List.filterMap id rs) := by
            simp [hfilter]
          rw [hfm, hfc, getLast?_cons_or, Option.or_assoc]
          rfl
        · have hfilter : ¬ (rec.isin = k) := fun h => hkr h.symm
          rw [if_neg hkr]
          simp [hfilter]

theorem ishareStore_foldl_keys :
    ∀ (results : List (Option FundRecord)) (d : List (String × FundRecord)),
      (d.map Prod.fst).Nodup → ((results.foldl ishareStoreStep d).map Prod.fst).Nodup := by
  intro results
  induction results with
  | nil => intro d h; exact h
  | cons r? rs ih =>
    intro d h
    rw [List.foldl_cons]
    apply ih
    cases r? with
    | none => exact h
    | some rec =>
      by_cases hemp : rec.isin = ""
      · simpa [ishareStoreStep, hemp] using h
      · have hstep : ishareStoreStep d (some rec) = dictInsert d rec.isin rec := by
          simp [ishareStoreStep, hemp]
        rw [hstep]
        exact dictInsert_keys_nodup d rec.isin rec h

theorem showMoreLoopGo_always_visible :
    ∀ (fuel i : Nat), showMoreLoopGo (fun _ => true) fuel i = none := by
  intro fuel
  induction fuel with
  | zero => intro i; rfl
  | succ n ih => intro i; simpa [showMoreLoopGo] using ih (i + 1)

/-! ## Claims -/

/-- C9: the "show more" pagination loop of `get_vanguard_urls`
(all.py lines 137-141, Combined.py lines 85-87) has **no** hard iteration
cap: on a page whose show-more affordance never disappears, the loop is
still running after any number of iterations, so no bound makes URL
collection terminate on every page. -/
theorem claim_C9_no_iteration_cap :
    (∀ fuel, showMoreLoop (fun _ => true) fuel = none) ∧ ¬ showMoreHasCap := by
  constructor
  · intro fuel
    exact showMoreLoopGo_always_visible fuel 0
  · rintro ⟨cap, hcap⟩
    have h := hcap (fun _ => true)
    rw [showMoreLoop, showMoreLoopGo_always_visible] at h
    exact Bool.noConfusion h

/-- C10: Combined.py `scrape_etf_page` truncates the extracted holdings to
the first 10 in source order (`holdings[:10]`, line 301), so every returned
FundRecord carries at most 10 holdings. -/
theorem claim_C10_truncation :
    ∀ (r : Option FirecrawlData) (rec : FundRecord),
      combinedScrape r = some rec →
      rec.holdings.length ≤ 10 ∧
        ∃ d, r = some d ∧ rec.holdings = (d.holdings.getD []).take 10 := by
  intro r rec h
  cases r with
  | none => exact absurd h (by simp [combinedScrape])
  | some d =>
    have hrec : rec = { isin := d.isin.getD "Unknown", name := d.name.getD "Unknown",
                        holdings := (d.holdings.getD []).take 10 } := by
      simpa [combinedScrape, eq_comm] using h
    subst hrec
    exact ⟨(d.holdings.getD []).length_take_le 10, d, rfl, rfl⟩

/-- C10 witness: a Firecrawl result with 12 holdings is returned with
exactly the first 10 of them. -/
theorem claim_C10_witness :
    c10Rec.holdings.length ≤ 10 ∧
      ∃ d, (some c10Data : Option FirecrawlData) = some d ∧
        c10Rec.holdings = (d.holdings.getD []).take 10 :=
  claim_C10_truncation (some c10Data) c10Rec (by decide)

/-- C2 counterexample: in all.py `main` (lines 649-652) a fully-processed
page whose identifier resolved to the placeholder `"N/A"` **is** stored —
the collection afterwards holds a FundRecord under the key `"N/A"`,
contradicting "no FundRecord is stored for that page". -/
theorem claim_C2_counterexample :
    dictLookup (allStoreStep [] (some { isin := "N/A", name := "N/A", holdings := [] })) "N/A"
      = some { isin := "N/A", name := "N/A", holdings := [] } := by
  decide

/-- C2 amended: only Combined.py withholds identifier-less results — a
result whose Firecrawl identifier is absent (hence defaulted to
`"Unknown"`), literally `"Unknown"`, or empty leaves the collection
untouched; all.py instead stores the record under the placeholder key. -/
theorem claim_C2_amended :
    ∀ (store : List (String × FundRecord)) (d : FirecrawlData),
      d.isin = none ∨ d.isin = some "Unknown" ∨ d.isin = some "" →
      combinedStoreStep store (combinedScrape (some d)) = store := by
  intro store d h
  rcases h with h | h | h <;> simp [combinedScrape, combinedStoreStep, h]

/-- C2 witness: a Firecrawl result with no `isin` key is not stored. -/
theorem claim_C2_witness :
    combinedStoreStep []
        (combinedScrape (some { name := some "Fund", isin := none, holdings := none })) = [] :=
  claim_C2_amended [] { name := some "Fund", isin := none, holdings := none } (Or.inl rfl)

/-- C3 counterexample: a classifier response that fails JSON decoding makes
`scrape_etf_page_and_download_csv` return `None` (Ishare.py lines 154-159) —
the page yields **no** record at all, not a record with empty holdings. -/
theorem claim_C3_counterexample :
    ishareScrape { name := "Fund", isin := "IE00X" } .malformed .success [] [] ⟨none, none⟩
      = none := by
  decide

/-- C3 amended: an unrecognized (or missing) `action` value does complete
fail-safe with an empty holdings sequence, but a JSON-decode failure instead
aborts the page with no record (the run then continues with the next URL). -/
theorem claim_C3_amended :
    ∀ (md : PageMeta) (a : String) (sel : Option String) (hs : List Holding)
      (dl : DlOutcome) (csv : Sheet) (m : List (String × String)) (p : IsharePage),
      a ≠ "download" → a ≠ "extract" →
      ishareScrape md (.object (some a) sel hs) dl csv m p
          = some { isin := md.isin, name := md.name, holdings := [] }
        ∧ ishareScrape md .malformed dl csv m p = none := by
  intro md a sel hs dl csv m p h1 h2
  constructor
  · simp [ishareScrape, h1, h2]
  · rfl

/-- C3 witness: the unrecognized action `"bogus"` yields a record with empty
holdings, while a decode failure yields nothing. -/
theorem claim_C3_witness :
    ishareScrape { name := "Fund", isin := "IE00X" }
          (.object (some "bogus") none []) .success [] [] ⟨none, none⟩
        = some { isin := "IE00X", name := "Fund", holdings := [] }
      ∧ ishareScrape { name := "Fund", isin := "IE00X" } .malformed .success [] [] ⟨none, none⟩
        = none :=
  claim_C3_amended { name := "Fund", isin := "IE00X" } "bogus" none [] .success [] [] ⟨none, none⟩
    (by decide) (by decide)

/-- C4 counterexample: in amundietf.py (lines 167-170) a download directive
with an empty selector is **not** given a fallback locator — it raises
`ValueError`, which the page handler turns into a `None` result. -/
theorem claim_C4_counterexample :
    amundiSelectorOutcome (some "")
      = Except.error "AI suggested download but did not provide a valid selector." := by
  rfl

/-- C4 amended: only the Xtrackers resolver substitutes its hand-maintained
fallback locator for an empty or missing selector (and keeps any non-empty
selector as given); the Amundi resolver instead raises and the page fails. -/
theorem claim_C4_amended :
    ∀ sel : Option String,
      ((sel = none ∨ sel = some "") → xtChooseSelector sel = xtFallbackSelector)
        ∧ (∀ s, sel = some s → s ≠ "" → xtChooseSelector sel = s) := by
  intro sel
  constructor
  · rintro (rfl | rfl) <;> rfl
  · rintro s rfl hs
    simp [xtChooseSelector, hs]

/-- C4 witness: the empty selector is replaced by the Xtrackers fallback
locator. -/
theorem claim_C4_witness : xtChooseSelector (some "") = xtFallbackSelector :=
  (claim_C4_amended (some "")).1 (Or.inr rfl)

/-- C5 counterexample: an iShares download that fails with a non-timeout
error (e.g. click interception) does **not** degrade to the fallback
HTML-table parser — the record comes back with empty holdings even though
the fallback parser would have recovered a row from this very page. -/
theorem claim_C5_counterexample :
    ishareScrape { name := "Fund", isin := "IE00X" }
          (.object (some "download") (some "a.dl") []) .failure [] [] c5Page
        = some { isin := "IE00X", name := "Fund", holdings := [] }
      ∧ ishareFallback c5Page = .ok [{ name := "Foo", weight := .num ⟨12, 1⟩ }] :=
  ⟨rfl, rfl⟩

/-- C5 amended: only a download **timeout** in Ishare.py degrades to the
fallback HTML-table parser; any other download failure there, and every
download failure in Xtrackers.py, skips the fallback and leaves holdings
empty.  In all these cases a FundRecord with an empty holdings sequence is
still produced under the resolved identifier, and the store keeps it. -/
theorem claim_C5_amended :
    ∀ (md : PageMeta) (s : String) (csv : Sheet) (m : List (String × String))
      (p : IsharePage) (store : List (String × FundRecord)),
      s ≠ "" → ishareFallback p = .ok [] →
      ishareScrape md (.object (some "download") (some s) []) .timeout csv m p
          = some { isin := md.isin, name := md.name, holdings := [] }
        ∧ ishareScrape md (.object (some "download") (some s) []) .failure csv m p
          = some { isin := md.isin, name := md.name, holdings := [] }
        ∧ xtScrapeDownload md none = some { isin := md.isin, name := md.name, holdings := [] }
        ∧ (md.isin ≠ "" →
            ishareStoreStep store
                (ishareScrape md (.object (some "download") (some s) []) .failure csv m p)
              = dictInsert store md.isin { isin := md.isin, name := md.name, holdings := [] }) := by
  intro md s csv m p store hs hfb
  refine ⟨?_, ?_, rfl, ?_⟩
  · simp [ishareScrape, hs, hfb]
  · simp [ishareScrape, hs]
  · intro hisin
    have h2 : ishareScrape md (.object (some "download") (some s) []) .failure csv m p
        = some { isin := md.isin, name := md.name, holdings := [] } := by
      simp [ishareScrape, hs]
    rw [h2]
    simp [ishareStoreStep, hisin]

/-- C5 witness: with no fallback tables on the page, both failure modes
still yield (and store) a record with empty holdings. -/
theorem claim_C5_witness :
    ishareScrape { name := "Fund", isin := "IE00X" }
          (.object (some "download") (some "a.dl") []) .timeout [] [] ⟨none, none⟩
        = some { isin := "IE00X", name := "Fund", holdings := [] }
      ∧ ishareScrape { name := "Fund", isin := "IE00X" }
          (.object (some "download") (some "a.dl") []) .failure [] [] ⟨none, none⟩
        = some { isin := "IE00X", name := "Fund", holdings := [] }
      ∧ xtScrapeDownload { name := "Fund", isin := "IE00X" } none
        = some { isin := "IE00X", name := "Fund", holdings := [] }
      ∧ (("IE00X" : String) ≠ "" →
          ishareStoreStep []
              (ishareScrape { name := "Fund", isin := "IE00X" }
                (.object (some "download") (some "a.dl") []) .failure [] [] ⟨none, none⟩)
            = dictInsert [] "IE00X" { isin := "IE00X", name := "Fund", holdings := [] }) :=
  claim_C5_amended { name := "Fund", isin := "IE00X" } "a.dl" [] [] ⟨none, none⟩ []
    (by decide) rfl

/-- C8 counterexample: the iShares URL collector (Ishare.py lines 57-64)
performs no deduplication — a listing that renders the same product link
twice within the quota yields the same URL twice. -/
theorem claim_C8_counterexample :
    ¬ (ishareCollectUrls [some "/a", some "/a"] 2).Nodup := by
  decide

/-- C8 amended: the iShares collector returns exactly the URLs built from
the first `limit` anchors in DOM order whose `href` is truthy — order
preserved and bounded by the quota, but **without** deduplication by URL
string (duplicated links yield duplicated URLs); only the Xtrackers variant
deduplicates, via an unordered set whose iteration order, not DOM order,
decides the truncation. -/
theorem claim_C8_amended :
    ∀ (hrefs : List (Option String)) (limit : Nat),
      ishareCollectUrls hrefs limit
          = (((hrefs.take limit).filterMap id).filter (fun h => h ≠ "")).map ishareBuildUrl
        ∧ (ishareCollectUrls hrefs limit).length ≤ limit := by
  intro hrefs limit
  have hmain : ishareCollectUrls hrefs limit
      = (((hrefs.take limit).filterMap id).filter (fun h => h ≠ "")).map ishareBuildUrl := by
    simpa [ishareCollectUrls] using ishareCollect_foldl (hrefs.take limit) []
  refine ⟨hmain, ?_⟩
  rw [hmain]
  calc ((((hrefs.take limit).filterMap id).filter (fun h => h ≠ "")).map ishareBuildUrl).length
      = (((hrefs.take limit).filterMap id).filter (fun h => h ≠ "")).length := by
        rw [List.length_map]
    _ ≤ ((hrefs.take limit).filterMap id).length := List.length_filter_le _ _
    _ ≤ (hrefs.take limit).length := List.length_filterMap_le _ _
    _ ≤ limit := hrefs.length_take_le limit

/-- C7 counterexample: `process_amundi_download` (all.py lines 446-457) does
not scan for the header — it fixes it at row index 21.  The very same
header-plus-data content yields a record when preceded by exactly 21 filler
rows but yields nothing when the header sits at row 0, so the N = 0 case of
the claim fails. -/
theorem claim_C7_counterexample :
    amundiProcessFile c7NoPreambleFile = []
      ∧ amundiProcessFile (List.replicate 21 [some "preamble"] ++ c7NoPreambleFile)
        = [{ name := "Foo", weight := .num ⟨15, 1⟩ }] := by
  decide

/-- C7 amended: the **Xtrackers** normalizer does scan top-to-bottom and
select the first row with at least 3 exact keyword-cell matches, locating
the header at row N after any N non-matching preamble rows, and it returns
an empty sequence (no exception) when no row reaches the threshold; the
Amundi processor of all.py instead hardcodes the header at row index 21. -/
theorem claim_C7_amended :
    (∀ (pre : Sheet) (hdr : Row) (rest : Sheet),
        (∀ r ∈ pre, xtIsHeaderRow r = false) → xtIsHeaderRow hdr = true →
        xtFindHeader (pre ++ hdr :: rest) = some pre.length)
      ∧ ∀ rows : Sheet, (∀ r ∈ rows, xtIsHeaderRow r = false) → xtProcessFile rows = [] := by
  constructor
  · intro pre hdr rest hpre hhdr
    simpa [xtFindHeader] using findRowIdx_append xtIsHeaderRow pre hdr rest 0 hpre hhdr
  · intro rows h
    unfold xtProcessFile xtFindHeader
    rw [findRowIdx_none xtIsHeaderRow rows 0 h]

/-- C7 witness: a header row after 21 preamble rows is found at index 21,
and a sheet with no qualifying row normalizes to the empty sequence. -/
theorem claim_C7_witness :
    xtFindHeader (List.replicate 21 [some "x"] ++ [[some "isin", some "name", some "land"]])
        = some 21
      ∧ xtProcessFile [[some "junk"], [some "more junk"]] = [] :=
  ⟨claim_C7_amended.1 (List.replicate 21 [some "x"]) [some "isin", some "name", some "land"] []
      (by decide) (by decide),
    claim_C7_amended.2 [[some "junk"], [some "more junk"]] (by decide)⟩

/-- C1 counterexample: the Xtrackers file normalizer (Xtrackers.py lines
263-287) drops rows only when `name` or `isin` is missing; a row whose
weight cell `"abc"` fails numeric coercion is **kept** and stored with the
non-numeric weight string `"N/A"` (via `fillna`). -/
theorem claim_C1_counterexample :
    xtProcessFile c1File
      = [{ name := "Foo", isin := "XS1", weight := .str "N/A", country := "DE" }] := by
  decide

/-- C1 amended: the weight invariant holds on the iShares CSV path — every
stored record there has a successfully coerced numeric weight and a present
name (Ishare.py lines 199-200) — but not across all extraction paths: the
Xtrackers file path keeps rows with unparsable weight (storing `"N/A"`,
dropping only rows missing name or ISIN), and no path checks the sign of
the coerced weight. -/
theorem claim_C1_amended :
    ∀ (rows : Sheet) (m : List (String × String)) (h : Holding),
      h ∈ ishareProcessCsv rows m → ∃ q, h.weight = FieldVal.num q := by
  intro rows m h hmem
  unfold ishareProcessCsv at hmem
  dsimp only at hmem
  split at hmem
  · split at hmem
    · exact absurd hmem (List.not_mem_nil h)
    · split at hmem
      · rw [List.mem_filterMap] at hmem
        obtain ⟨r, _, hfr⟩ := hmem
        split at hfr
        · rename_i w nm hw hn
          cases hfr
          exact ⟨w, rfl⟩
        · exact Option.noConfusion hfr
      · exact absurd hmem (List.not_mem_nil h)
  · exact absurd hmem (List.not_mem_nil h)

/-- C1 witness: the valid data row of `c1Csv` is stored with its coerced
numeric weight. -/
theorem claim_C1_witness :
    c1Rec ∈ ishareProcessCsv c1Csv [] ∧ ∃ q, c1Rec.weight = FieldVal.num q :=
  ⟨by decide, claim_C1_amended c1Csv [] c1Rec (by decide)⟩

/-- C6: the ISIN-keyed store of Ishare.py `main` (lines 303-306) is
last-write-wins — after processing any sequence of results, the keys of the
collection are free of duplicates, and the entry under any (truthy) ISIN is
exactly the most recently stored result carrying that ISIN; a second result
with the same ISIN overwrites, never appends. -/
theorem claim_C6_last_write_wins :
    ∀ (results : List (Option FundRecord)) (k : String),
      ((ishareStoreAll results).map Prod.fst).Nodup
        ∧ (k ≠ "" →
            dictLookup (ishareStoreAll results) k
              = ((results.filterMap id).filter (fun r => r.isin = k)).getLast?) := by
  intro results k
  constructor
  · exact ishareStore_foldl_keys results [] (by simp)
  · intro hk
    rw [ishareStoreAll, ishareStore_foldl_lookup results [] k hk]
    simp [dictLookup]

/-- C6 witness: two results with the same ISIN leave one entry, equal to the
second result. -/
theorem claim_C6_witness :
    ((ishareStoreAll [some c6r1, some c6r2]).map Prod.fst).Nodup
      ∧ dictLookup (ishareStoreAll [some c6r1, some c6r2]) "LU1"
          = (([some c6r1, some c6r2].filterMap id).filter (fun r => r.isin = "LU1")).getLast?
      ∧ (([some c6r1, some c6r2].filterMap id).filter
            (fun r => r.isin = "LU1")).getLast? = some c6r2 :=
  ⟨(claim_C6_last_write_wins [some c6r1, some c6r2] "LU1").1,
    (claim_C6_last_write_wins [some c6r1, some c6r2] "LU1").2 (by decide),
    by decide⟩

end ETFS
